import Mathlib

/-!
Verification of the robot-arm controller library (src/robotarmlib.py).

The library is a host-side controller for a stepper-motor robot arm that
talks a G-code-like dialect over a serial link.  This file is a shallow
embedding of the `RobotArm` class: the session becomes an explicit state
record, each method becomes a state-passing function, and a raised Python
exception becomes an `Except.error` carrying the state at the moment of the
raise (Python exceptions do not roll back mutations already performed, so
the state travels with the error).  Bytes written to the serial transport
are recorded in an event trace instead of being sent.

Python numbers are modelled exactly: `int` as `Int`, and `float` as an
exact decimal fixed-point value.  Every float value this library produces
on the paths verified here (decimal literals, int/float additions, values
parsed from decimal command tokens) is an exact decimal, so the model
coincides with IEEE-754 evaluation on them.
-/

deriving instance DecidableEq for Except

namespace RobotArm

/-- Decimal fixed-point number: the value num / 10 ^ exp.  Model of the
Python `float` values arising in this library. -/
structure Dec where
  num : Int
  exp : Nat
deriving DecidableEq, Repr

/-- A numeric value tracked by the library: Python `int` or `float`.  The
variant matters because the position formatting branches on
`isinstance(v, int)`. -/
inductive Value where
  | intV (n : Int)
  | floatV (d : Dec)
deriving DecidableEq, Repr

/-- Python exceptions raised by the library or by the runtime on its
behalf. -/
inductive PyErr where
  | exception (msg : String)
  | typeError (msg : String)
  | valueError (msg : String)
  | indexError
deriving DecidableEq, Repr

/-- Observable side effects of a session, in order of occurrence. -/
inductive Event where
  | sleep (seconds : Dec)
  | write (line : String)
deriving DecidableEq, Repr

/-- The `RobotArm` session state.  `portPresent` models
`serial_port is not None`; `portOpen` models `serial_port.is_open` (only
meaningful when the port is present).  `trace` records the side effects
performed so far. -/
structure ArmState where
  attachment : Int
  portPresent : Bool
  portOpen : Bool
  alreadyInit : Bool
  xPos : Option Value
  yPos : Option Value
  zPos : Option Value
  coarseStep : Value
  fineStep : Value
  trace : List Event
deriving DecidableEq, Repr

/-- Result of a `RobotArm` method: a raised Python error or a return value,
in both cases with the session state afterwards. -/
abbrev ArmRes (α : Type) := Except (PyErr × ArmState) (α × ArmState)

/-- The state in which a computation ended, whether it returned or raised. -/
def afterRes {α : Type} : ArmRes α → ArmState
  | .error (_, s) => s
  | .ok (_, s) => s

/-! ### String and number helpers

Lean core string functions do not reduce inside the kernel, so the Python
string operations used by the library are given structural definitions
over `List Char`. -/

/-- Split a character list at every character satisfying `p`, keeping empty
pieces; the result is always nonempty.  With `p = (· == sep)` this is
exactly Python `str.split(sep)` for a one-character separator. -/
def splitPred (p : Char → Bool) : List Char → List (List Char)
  | [] => [[]]
  | c :: cs =>
    match splitPred p cs with
    | [] => [[]]
    | t :: rest => if p c then [] :: t :: rest else (c :: t) :: rest

/-- Python `str.split(sep)` for a single-character separator. -/
def splitChar (sep : Char) (cs : List Char) : List (List Char) :=
  splitPred (fun c => c == sep) cs

def allDigits (cs : List Char) : Bool := cs.all Char.isDigit

def digitsValAux : List Char → Nat → Nat
  | [], acc => acc
  | c :: cs, acc => digitsValAux cs (acc * 10 + (c.toNat - 48))

/-- Numeric value of a string of decimal digits. -/
def digitsVal (cs : List Char) : Nat := digitsValAux cs 0

/-- Parse of a nonempty all-digit string. -/
def natParse (cs : List Char) : Option Nat :=
  if cs ≠ [] ∧ allDigits cs then some (digitsVal cs) else none

/-- Python `int(s)` on plain decimal literals (an optional leading minus
sign followed by digits; surrounding whitespace, a plus sign and digit
underscores are not modelled — no caller in the library produces them). -/
def intParse : List Char → Option Int
  | '-' :: rest => (natParse rest).map (fun n => -(n : Int))
  | cs => (natParse cs).map (fun n => (n : Int))

/-- Unsigned part of Python `float(s)` on plain decimal literals: digits
with an optional fractional part (exponents, inf and nan are not
modelled — no caller in the library produces them). -/
def floatParseCore (cs : List Char) : Option Dec :=
  match splitChar '.' cs with
  | [w] => if w ≠ [] ∧ allDigits w then some ⟨(digitsVal w : Int), 0⟩ else none
  | [w, f] =>
    if (w ≠ [] ∨ f ≠ []) ∧ allDigits w ∧ allDigits f then
      some ⟨(digitsVal w * 10 ^ f.length + digitsVal f : Int), f.length⟩
    else none
  | _ => none

/-- Python `float(s)` on plain decimal literals. -/
def floatParse : List Char → Option Dec
  | '-' :: rest => (floatParseCore rest).map (fun d => ⟨-d.num, d.exp⟩)
  | cs => floatParseCore cs

/-- The two-stage numeric parse of `__update_pos`: try `int(s)`, on
`ValueError` fall back to `float(s)`; if both fail the second `ValueError`
escapes uncaught. -/
def numOfString (cs : List Char) : Except PyErr Value :=
  match intParse cs with
  | some n => .ok (.intV n)
  | none =>
    match floatParse cs with
    | some d => .ok (.floatV d)
    | none => .error (.valueError ("could not convert string to float: " ++ cs.asString))

/-- Exact addition of decimal fixed-point values. -/
def Dec.add (a b : Dec) : Dec :=
  if a.exp ≤ b.exp then ⟨a.num * 10 ^ (b.exp - a.exp) + b.num, b.exp⟩
  else ⟨a.num + b.num * 10 ^ (a.exp - b.exp), a.exp⟩

/-- Round a / b (for b > 0) to the nearest integer, ties to even — the
rounding performed by the `.1f` float format. -/
def rndHalfEven (a b : Int) : Int :=
  let q := Int.fdiv a b
  let r := a - q * b
  if 2 * r < b then q
  else if b < 2 * r then q + 1
  else if q % 2 = 0 then q else q + 1

/-- The `.1f` format: render with exactly one digit after the decimal
point, rounding to the nearest tenth. -/
def fmtFloat1 (d : Dec) : String :=
  let n : Int :=
    match d.exp with
    | 0 => d.num * 10
    | e + 1 => rndHalfEven d.num (10 ^ e)
  let m := n.natAbs
  (if n < 0 then "-" else "") ++ Nat.repr (m / 10) ++ "." ++ Nat.repr (m % 10)

/-- Rendering of one resolved axis value in `gcode_send_pos`: the plain
f-string for an `int`, the `.1f` format for anything else. -/
def fmtValue : Value → String
  | .intV n => Int.repr n
  | .floatV d => fmtFloat1 d

/-! ### Library constants (module level in robotarmlib.py) -/

def POS_HOME : String := "home"
def POS_END_STOP : String := "end_stop"
def POS_BOTTOM : String := "bottom"
def POS_REST : String := "rest"

def ATTACHMENT_GRIPPER : Int := 0
def ATTACHMENT_FAN : Int := 1

def GCODE_ENABLE_MOTORS : String := "M17"
def GCODE_DISABLE_MOTORS : String := "M18"
def GCODE_ENABLE_FAN : String := "M106"
def GCODE_DISABLE_FAN : String := "M107"

/-- The "M3 T" format string applied to its step-count argument. -/
def GCODE_OPEN_GRIPPER (t : Int) : String := "M3 T" ++ Int.repr t

/-- The "M5 T" format string applied to its step-count argument. -/
def GCODE_CLOSE_GRIPPER (t : Int) : String := "M5 T" ++ Int.repr t

/-- The "G1 X_ Y_ Z_" format string applied to the three rendered axis
operands. -/
def GCODE_G1 (x y z : String) : String :=
  "G1 X" ++ x ++ " Y" ++ y ++ " Z" ++ z

/-! ### Connection state -/

/-- `is_connection_open`: false when no port is configured, else the
port's own is-open flag. -/
def is_connection_open (s : ArmState) : Bool :=
  if s.portPresent = false then false else s.portOpen

/-- `is_connection_not_open` (alias method). -/
def is_connection_not_open (s : ArmState) : Bool :=
  !(is_connection_open s)

/-- The error raised when no serial port is configured
(the spec's ConfigurationError). -/
def ConfigurationError : PyErr := .exception "No serial port defined"

/-- The error raised when a send is attempted on an unopened port
(the spec's ConnectionError). -/
def ConnectionError : PyErr := .exception "RobotArm serial port is not opened :("

/-- `__gcode_send`, the private encode-and-transmit step: guard the
transport, append the CR+LF terminator, encode as UTF-8 (`struct.pack`
with an `s` count equal to the length is the identity on the encoded
bytes), write, and return the transport's byte count. -/
def gcode_send_priv (s : ArmState) (gcode : String) : ArmRes Nat :=
  if s.portPresent = false then .error (ConfigurationError, s)
  else if is_connection_not_open s then .error (ConnectionError, s)
  else
    let line := gcode ++ "\r\n"
    .ok (line.utf8ByteSize, { s with trace := s.trace ++ [.write line] })

/-! ### Motor, gripper, fan and attachment methods -/

def gcode_enable_motors (s : ArmState) : ArmRes Nat :=
  gcode_send_priv s GCODE_ENABLE_MOTORS

def gcode_disable_motors (s : ArmState) : ArmRes Nat :=
  gcode_send_priv s GCODE_DISABLE_MOTORS

/-- Note: in the source, `gcode_close_gripper` sends the constant named
GCODE_OPEN_GRIPPER (M3) and `gcode_open_gripper` sends GCODE_CLOSE_GRIPPER
(M5); the constant names are swapped relative to the method names.  The
embedding reproduces the source exactly. -/
def gcode_close_gripper (s : ArmState) (t : Int := 10) : ArmRes Nat :=
  gcode_send_priv s (GCODE_OPEN_GRIPPER t)

def gcode_open_gripper (s : ArmState) (t : Int := 10) : ArmRes Nat :=
  gcode_send_priv s (GCODE_CLOSE_GRIPPER t)

def gcode_enable_fan (s : ArmState) : ArmRes Nat :=
  gcode_send_priv s GCODE_ENABLE_FAN

def gcode_disable_fan (s : ArmState) : ArmRes Nat :=
  gcode_send_priv s GCODE_DISABLE_FAN

def gcode_attachment_high (s : ArmState) : ArmRes Nat :=
  if s.attachment = ATTACHMENT_GRIPPER then gcode_close_gripper s
  else if s.attachment = ATTACHMENT_FAN then gcode_enable_fan s
  else .error (.exception ("unimplemented attachment type: " ++ Int.repr s.attachment), s)

def gcode_attachment_low (s : ArmState) : ArmRes Nat :=
  if s.attachment = ATTACHMENT_GRIPPER then gcode_open_gripper s
  else if s.attachment = ATTACHMENT_FAN then gcode_disable_fan s
  else .error (.exception ("unimplemented attachment type: " ++ Int.repr s.attachment), s)

/-! ### Absolute movement -/

/-- `x_pos = self.__x_pos if x_pos is None else x_pos`. -/
def resolve_axis (cur arg : Option Value) : Option Value :=
  match arg with
  | none => cur
  | some v => some v

/-- The TypeError raised by formatting None with the `.1f` format spec. -/
def NoneFormatError : PyErr :=
  .typeError "unsupported format string passed to NoneType.__format__"

/-- The TypeError raised by `None + delta`. -/
def NonePlusError : PyErr :=
  .typeError "unsupported operand types for +: NoneType and number"

/-- Rendering of one resolved axis operand.  `None` fails the
`isinstance(v, int)` test, reaches the `.1f` branch, and
`format(None, ".1f")` raises TypeError. -/
def fmt_axis : Option Value → Except PyErr String
  | none => .error NoneFormatError
  | some v => .ok (fmtValue v)

/-- `__update_pos` restricted to the numeric (never-string) arguments it
receives from `gcode_send_pos`: each axis whose argument is not None is
assigned. -/
def update_pos_num (s : ArmState) (x y z : Option Value) : ArmState :=
  let s1 := match x with | none => s | some v => { s with xPos := some v }
  let s2 := match y with | none => s1 | some v => { s1 with yPos := some v }
  match z with | none => s2 | some v => { s2 with zPos := some v }

/-- `gcode_send_pos`: default omitted axes from the tracked position,
render the three operands (in x, y, z order), commit the position, then
encode and transmit. -/
def gcode_send_pos (s : ArmState) (x y z : Option Value) : ArmRes Nat :=
  let xv := resolve_axis s.xPos x
  let yv := resolve_axis s.yPos y
  let zv := resolve_axis s.zPos z
  match fmt_axis xv with
  | .error e => .error (e, s)
  | .ok sx =>
    match fmt_axis yv with
    | .error e => .error (e, s)
    | .ok sy =>
      match fmt_axis zv with
      | .error e => .error (e, s)
      | .ok sz =>
        gcode_send_priv (update_pos_num s xv yv zv) (GCODE_G1 sx sy sz)

/-! ### Predefined position movement -/

def gcode_pos_home (s : ArmState) : ArmRes Nat :=
  gcode_send_pos s (some (.intV 0)) (some (.intV 120)) (some (.intV 120))

def gcode_pos_end_stop (s : ArmState) : ArmRes Nat :=
  gcode_send_pos s (some (.floatV ⟨0, 1⟩)) (some (.floatV ⟨195, 1⟩)) (some (.floatV ⟨1340, 1⟩))

def gcode_pos_bottom (s : ArmState) : ArmRes Nat :=
  gcode_send_pos s (some (.intV 0)) (some (.intV 100)) (some (.intV 0))

def gcode_pos_rest (s : ArmState) : ArmRes Nat :=
  gcode_send_pos s (some (.intV 0)) (some (.intV 40)) (some (.intV 70))

/-- `gcode_pos` (the parameter is named `to` in the source): dictionary
dispatch on the preset name, with a zero-byte no-op default. -/
def gcode_pos (s : ArmState) (dest : String) : ArmRes Nat :=
  if dest = POS_HOME then gcode_pos_home s
  else if dest = POS_END_STOP then gcode_pos_end_stop s
  else if dest = POS_BOTTOM then gcode_pos_bottom s
  else if dest = POS_REST then gcode_pos_rest s
  else .ok (0, s)

/-! ### Relative movement -/

/-- Python truthiness of a numeric value (0 and 0.0 are falsy). -/
def truthy : Value → Bool
  | .intV n => !(n == 0)
  | .floatV d => !(d.num == 0)

/-- `self.__x_pos + delta`: adding a number to an unset (None) position
raises TypeError. -/
def pos_plus (cur : Option Value) (d : Value) : Except PyErr Value :=
  match cur, d with
  | none, _ => .error NonePlusError
  | some (.intV a), .intV b => .ok (.intV (a + b))
  | some (.intV a), .floatV b => .ok (.floatV (Dec.add ⟨a, 0⟩ b))
  | some (.floatV a), .intV b => .ok (.floatV (Dec.add a ⟨b, 0⟩))
  | some (.floatV a), .floatV b => .ok (.floatV (Dec.add a b))

/-- One keyword argument of the `gcode_send_pos` call made by
`gcode_send_pos_delta`: current + delta when the delta is truthy, else the
current value unchanged. -/
def delta_arg (cur d : Option Value) : Except PyErr (Option Value) :=
  match d with
  | none => .ok cur
  | some dv => if truthy dv then (pos_plus cur dv).map some else .ok cur

/-- `gcode_send_pos_delta`: the three argument expressions are evaluated
in x, y, z order before the inner call; a raise during that evaluation
leaves the session untouched. -/
def gcode_send_pos_delta (s : ArmState) (xd yd zd : Option Value) : ArmRes Nat :=
  match delta_arg s.xPos xd with
  | .error e => .error (e, s)
  | .ok xa =>
    match delta_arg s.yPos yd with
    | .error e => .error (e, s)
    | .ok ya =>
      match delta_arg s.zPos zd with
      | .error e => .error (e, s)
      | .ok za => gcode_send_pos s xa ya za

/-! ### Step movement -/

def set_coarse_step (s : ArmState) (val : Value) : ArmState :=
  { s with coarseStep := val }

def set_fine_step (s : ArmState) (val : Value) : ArmState :=
  { s with fineStep := val }

/-- `v * -1` on a step magnitude. -/
def neg_value : Value → Value
  | .intV n => .intV (-n)
  | .floatV d => .floatV ⟨-d.num, d.exp⟩

def gcode_x_coarse_pos (s : ArmState) : ArmRes Nat :=
  gcode_send_pos_delta s (some s.coarseStep) none none

def gcode_y_coarse_pos (s : ArmState) : ArmRes Nat :=
  gcode_send_pos_delta s none (some s.coarseStep) none

def gcode_z_coarse_pos (s : ArmState) : ArmRes Nat :=
  gcode_send_pos_delta s none none (some s.coarseStep)

def gcode_x_coarse_neg (s : ArmState) : ArmRes Nat :=
  gcode_send_pos_delta s (some (neg_value s.coarseStep)) none none

def gcode_y_coarse_neg (s : ArmState) : ArmRes Nat :=
  gcode_send_pos_delta s none (some (neg_value s.coarseStep)) none

def gcode_z_coarse_neg (s : ArmState) : ArmRes Nat :=
  gcode_send_pos_delta s none none (some (neg_value s.coarseStep))

def gcode_x_fine_pos (s : ArmState) : ArmRes Nat :=
  gcode_send_pos_delta s (some s.fineStep) none none

def gcode_y_fine_pos (s : ArmState) : ArmRes Nat :=
  gcode_send_pos_delta s none (some s.fineStep) none

def gcode_z_fine_pos (s : ArmState) : ArmRes Nat :=
  gcode_send_pos_delta s none none (some s.fineStep)

def gcode_x_fine_neg (s : ArmState) : ArmRes Nat :=
  gcode_send_pos_delta s (some (neg_value s.fineStep)) none none

def gcode_y_fine_neg (s : ArmState) : ArmRes Nat :=
  gcode_send_pos_delta s none (some (neg_value s.fineStep)) none

def gcode_z_fine_neg (s : ArmState) : ArmRes Nat :=
  gcode_send_pos_delta s none none (some (neg_value s.fineStep))

/-! ### Raw send with position scan -/

inductive Axis where
  | X
  | Y
  | Z
deriving DecidableEq, Repr

/-- One single-axis assignment of `__update_pos`, as invoked from the scan
lambdas of `gcode_send`. -/
def set_axis (s : ArmState) (a : Axis) (v : Value) : ArmState :=
  match a with
  | .X => { s with xPos := some v }
  | .Y => { s with yPos := some v }
  | .Z => { s with zPos := some v }

/-- The token scan of `gcode_send` over `gcode.split(' ')`: an X/Y/Z token
parses its suffix (int, else float) into that axis; a G token does nothing
and scanning continues; any other leading character breaks out of the
loop; an empty piece makes `seg[0]` raise IndexError. -/
def scan_gcode (s : ArmState) : List (List Char) → Except (PyErr × ArmState) ArmState
  | [] => .ok s
  | seg :: rest =>
    match seg with
    | [] => .error (.indexError, s)
    | c :: sfx =>
      if c = 'X' then
        match numOfString sfx with
        | .error e => .error (e, s)
        | .ok v => scan_gcode (set_axis s .X v) rest
      else if c = 'Y' then
        match numOfString sfx with
        | .error e => .error (e, s)
        | .ok v => scan_gcode (set_axis s .Y v) rest
      else if c = 'Z' then
        match numOfString sfx with
        | .error e => .error (e, s)
        | .ok v => scan_gcode (set_axis s .Z v) rest
      else if c = 'G' then scan_gcode s rest
      else .ok s

/-- `gcode_send`: scan the space-separated pieces for position effects,
then delegate to the private encode-and-transmit step. -/
def gcode_send (s : ArmState) (gcode : String) : ArmRes Nat :=
  match scan_gcode s (splitChar ' ' gcode.data) with
  | .error e => .error e
  | .ok s1 => gcode_send_priv s1 gcode

/-! ### Initialization sequencer and connection lifecycle -/

/-- `_init_seq`: skip (log only) when already initialized; otherwise wait
the 1.5 s settle delay, enable motors, move to the end-stop preset, set
the attachment low, and mark the session initialized. -/
def init_seq (s : ArmState) : ArmRes Unit :=
  if s.alreadyInit then .ok ((), s)
  else
    let s0 := { s with trace := s.trace ++ [.sleep ⟨15, 1⟩] }
    match gcode_enable_motors s0 with
    | .error e => .error e
    | .ok (_, s1) =>
      match gcode_pos_end_stop s1 with
      | .error e => .error e
      | .ok (_, s2) =>
        match gcode_attachment_low s2 with
        | .error e => .error e
        | .ok (_, s3) => .ok ((), { s3 with alreadyInit := true })

/-- `open_connection`: raise when no port is configured; otherwise attempt
the transport open (an OSError is logged and swallowed, modelled by the
`opens` flag), then run the initialization sequence regardless. -/
def open_connection (s : ArmState) (opens : Bool) : ArmRes Unit :=
  if s.portPresent then
    init_seq (if opens then { s with portOpen := true } else s)
  else .error (ConfigurationError, s)

/-- `close_connection`: raise when no port is configured; otherwise close
unconditionally. -/
def close_connection (s : ArmState) : ArmRes Unit :=
  if s.portPresent then .ok ((), { s with portOpen := false })
  else .error (ConfigurationError, s)

/-- `get_pos`. -/
def get_pos (s : ArmState) : Option Value × Option Value × Option Value :=
  (s.xPos, s.yPos, s.zPos)

/-! ### Serial port auto-discovery -/

/-- An unopened serial port configuration. -/
structure SerialCfg where
  port : String
  baudrate : Nat
  timeout : Nat
deriving DecidableEq, Repr

def charsStartWith : List Char → List Char → Bool
  | [], _ => true
  | _ :: _, [] => false
  | p :: ps, c :: cs => p == c && charsStartWith ps cs

def charsContain (pat : List Char) : List Char → Bool
  | [] => charsStartWith pat []
  | c :: cs => charsStartWith pat (c :: cs) || charsContain pat cs

/-- `re.search("usb", dev, IGNORECASE)`: case-insensitive substring
search. -/
def usb_match (dev : String) : Bool :=
  charsContain "usb".data (dev.data.map Char.toLower)

/-- `get_default_serial_port` over a device list.  The source computes
`reduce(lambda acc, val: val, filter(...))`: with no initial value, reduce
of an empty sequence raises TypeError, and on a nonempty sequence the
chosen element is the LAST match; the source's is-None check after the
reduce is unreachable. -/
def get_default_serial_port (ports : List String) : Except PyErr SerialCfg :=
  match (ports.filter usb_match).getLast? with
  | none => .error (.typeError "reduce of empty iterable with no initial value")
  | some port => .ok ⟨port, 9600, 2⟩

/-- Modelled from the spec (§6, discovery collaborator): select the FIRST
device whose identifier case-insensitively contains "usb"; fail with
DeviceNotFoundError when none match.  Written only to compare against the
source behaviour. -/
def get_default_serial_port_spec (ports : List String) : Except PyErr SerialCfg :=
  match ports.find? usb_match with
  | none => .error (.exception "DeviceNotFoundError")
  | some port => .ok ⟨port, 9600, 2⟩

/-- Modelled from the spec (§4.3): the whitespace-delimited tokens of a
command string (pieces between whitespace runs, no empty tokens).  Written
only to compare against the source tokenization, which splits on single
space characters. -/
def whitespace_tokens (s : String) : List String :=
  ((splitPred Char.isWhitespace s.data).filter (fun t => !t.isEmpty)).map List.asString

/-! ### The session-lifetime operation alphabet

Every public state-touching method of the class, used to state
session-lifetime invariants. -/

inductive ArmOp where
  | openConnection (opens : Bool)
  | closeConnection
  | initSeq
  | attachmentHigh
  | attachmentLow
  | enableMotors
  | disableMotors
  | closeGripper (t : Int)
  | openGripper (t : Int)
  | enableFan
  | disableFan
  | sendPos (x y z : Option Value)
  | posPreset (dest : String)
  | xCoarsePos
  | yCoarsePos
  | zCoarsePos
  | xCoarseNeg
  | yCoarseNeg
  | zCoarseNeg
  | xFinePos
  | yFinePos
  | zFinePos
  | xFineNeg
  | yFineNeg
  | zFineNeg
  | sendPosDelta (xd yd zd : Option Value)
  | sendRaw (gcode : String)
  | setCoarseStep (val : Value)
  | setFineStep (val : Value)
deriving DecidableEq, Repr

/-- Run one method and keep the state it left behind, whether it returned
or raised. -/
def runOp (s : ArmState) : ArmOp → ArmState
  | .openConnection opens => afterRes (open_connection s opens)
  | .closeConnection => afterRes (close_connection s)
  | .initSeq => afterRes (init_seq s)
  | .attachmentHigh => afterRes (gcode_attachment_high s)
  | .attachmentLow => afterRes (gcode_attachment_low s)
  | .enableMotors => afterRes (gcode_enable_motors s)
  | .disableMotors => afterRes (gcode_disable_motors s)
  | .closeGripper t => afterRes (gcode_close_gripper s t)
  | .openGripper t => afterRes (gcode_open_gripper s t)
  | .enableFan => afterRes (gcode_enable_fan s)
  | .disableFan => afterRes (gcode_disable_fan s)
  | .sendPos x y z => afterRes (gcode_send_pos s x y z)
  | .posPreset dest => afterRes (gcode_pos s dest)
  | .xCoarsePos => afterRes (gcode_x_coarse_pos s)
  | .yCoarsePos => afterRes (gcode_y_coarse_pos s)
  | .zCoarsePos => afterRes (gcode_z_coarse_pos s)
  | .xCoarseNeg => afterRes (gcode_x_coarse_neg s)
  | .yCoarseNeg => afterRes (gcode_y_coarse_neg s)
  | .zCoarseNeg => afterRes (gcode_z_coarse_neg s)
  | .xFinePos => afterRes (gcode_x_fine_pos s)
  | .yFinePos => afterRes (gcode_y_fine_pos s)
  | .zFinePos => afterRes (gcode_z_fine_pos s)
  | .xFineNeg => afterRes (gcode_x_fine_neg s)
  | .yFineNeg => afterRes (gcode_y_fine_neg s)
  | .zFineNeg => afterRes (gcode_z_fine_neg s)
  | .sendPosDelta xd yd zd => afterRes (gcode_send_pos_delta s xd yd zd)
  | .sendRaw gcode => afterRes (gcode_send s gcode)
  | .setCoarseStep val => set_coarse_step s val
  | .setFineStep val => set_fine_step s val

/-! ### Sample sessions (used in witnesses and counterexamples) -/

/-- A fresh gripper session whose transport is configured but closed. -/
def sampleClosed : ArmState :=
  { attachment := 0, portPresent := true, portOpen := false, alreadyInit := false,
    xPos := none, yPos := none, zPos := none,
    coarseStep := .intV 20, fineStep := .intV 5, trace := [] }

/-- A fresh gripper session with no transport configured. -/
def sampleNoPort : ArmState :=
  { sampleClosed with portPresent := false }

/-- A fresh gripper session whose transport is open. -/
def sampleOpenFresh : ArmState :=
  { sampleClosed with portOpen := true }

/-- An open gripper session positioned at home. -/
def sampleOpenHome : ArmState :=
  { sampleOpenFresh with
    xPos := some (.intV 0), yPos := some (.intV 120), zPos := some (.intV 120) }

/-- An open gripper session at (0, 0, 7). -/
def sampleScan : ArmState :=
  { sampleOpenFresh with
    xPos := some (.intV 0), yPos := some (.intV 0), zPos := some (.intV 7) }

/-- An open gripper session that has already run the handshake. -/
def sampleInitDone : ArmState :=
  { sampleOpenFresh with alreadyInit := true }

/-- An open fan session. -/
def sampleOpenFan : ArmState :=
  { sampleOpenFresh with attachment := 1 }

/-- An open session constructed with an out-of-range attachment tag. -/
def sampleBadTag : ArmState :=
  { sampleOpenFresh with attachment := 5 }

/-- An axis on which `gcode_send_pos_delta` would add a truthy delta to an
unset position. -/
def axis_bad (cur d : Option Value) : Prop :=
  ∃ dv, d = some dv ∧ truthy dv = true ∧ cur = none

/-! ## Theorems

### Decimal-rendering facts -/

theorem digitChar_digit (k : Nat) (h : k < 10) : (Nat.digitChar k).isDigit = true := by
  have hall : ∀ m < 10, (Nat.digitChar m).isDigit = true := by decide
  exact hall k h

theorem toDigitsCore_digit :
    ∀ (fuel n : Nat) (ds : List Char), (∀ c ∈ ds, c.isDigit = true) →
      ∀ c ∈ Nat.toDigitsCore 10 fuel n ds, c.isDigit = true := by
  intro fuel
  induction fuel with
  | zero =>
    intro n ds h c hc
    exact h c hc
  | succ fuel ih =>
    intro n ds h c hc
    rw [Nat.toDigitsCore] at hc
    have hd : (Nat.digitChar (n % 10)).isDigit = true :=
      digitChar_digit (n % 10) (Nat.mod_lt _ (by decide))
    by_cases h0 : n / 10 = 0
    · simp only [h0, if_pos rfl] at hc
      rcases List.mem_cons.mp hc with hc | hc
      · simpa [hc] using hd
      · exact h c hc
    · simp only [h0, if_neg h0] at hc
      refine ih (n / 10) (Nat.digitChar (n % 10) :: ds) ?_ c hc
      intro c' hc'
      rcases List.mem_cons.mp hc' with hc' | hc'
      · simpa [hc'] using hd
      · exact h c' hc'

theorem natRepr_digit (n : Nat) : ∀ c ∈ (Nat.repr n).data, c.isDigit = true := by
  intro c hc
  have : (Nat.repr n).data = Nat.toDigitsCore 10 (n + 1) n [] := rfl
  rw [this] at hc
  exact toDigitsCore_digit (n + 1) n [] (by intro c' hc'; exact absurd hc' (List.not_mem_nil c')) c hc

theorem intRepr_char (i : Int) : ∀ c ∈ (Int.repr i).data, c = '-' ∨ c.isDigit = true := by
  intro c hc
  cases i with
  | ofNat n =>
    exact Or.inr (natRepr_digit n c hc)
  | negSucc n =>
    have : (Int.repr (Int.negSucc n)).data = '-' :: (Nat.repr (n + 1)).data := rfl
    rw [this] at hc
    rcases List.mem_cons.mp hc with hc | hc
    · exact Or.inl hc
    · exact Or.inr (natRepr_digit (n + 1) c hc)

theorem natRepr_no_dot (n : Nat) : '.' ∉ (Nat.repr n).data := by
  intro h
  have := natRepr_digit n '.' h
  simp [Char.isDigit] at this

theorem intRepr_no_dot (i : Int) : '.' ∉ (Int.repr i).data := by
  intro h
  rcases intRepr_char i '.' h with h' | h'
  · exact absurd h' (by decide)
  · simp [Char.isDigit] at h'

theorem natRepr_len_one (k : Nat) (h : k < 10) : (Nat.repr k).length = 1 := by
  have hall : ∀ m < 10, (Nat.repr m).length = 1 := by decide
  exact hall k h

/-! ### The initialized flag across operations -/

theorem alreadyInit_priv (s : ArmState) (g : String) :
    (afterRes (gcode_send_priv s g)).alreadyInit = s.alreadyInit := by
  by_cases h1 : s.portPresent = false
  · simp [gcode_send_priv, h1, afterRes]
  · by_cases h2 : is_connection_not_open s = true
    · simp [gcode_send_priv, h1, h2, afterRes]
    · simp [gcode_send_priv, h1, h2, afterRes]

theorem alreadyInit_update_pos_num (s : ArmState) (x y z : Option Value) :
    (update_pos_num s x y z).alreadyInit = s.alreadyInit := by
  cases x <;> cases y <;> cases z <;> rfl

theorem alreadyInit_send_pos (s : ArmState) (x y z : Option Value) :
    (afterRes (gcode_send_pos s x y z)).alreadyInit = s.alreadyInit := by
  cases hx : fmt_axis (resolve_axis s.xPos x) with
  | error e => simp [gcode_send_pos, hx, afterRes]
  | ok sx =>
    cases hy : fmt_axis (resolve_axis s.yPos y) with
    | error e => simp [gcode_send_pos, hx, hy, afterRes]
    | ok sy =>
      cases hz : fmt_axis (resolve_axis s.zPos z) with
      | error e => simp [gcode_send_pos, hx, hy, hz, afterRes]
      | ok sz =>
        simp [gcode_send_pos, hx, hy, hz, alreadyInit_priv, alreadyInit_update_pos_num]

theorem alreadyInit_send_pos_delta (s : ArmState) (xd yd zd : Option Value) :
    (afterRes (gcode_send_pos_delta s xd yd zd)).alreadyInit = s.alreadyInit := by
  unfold gcode_send_pos_delta
  cases delta_arg s.xPos xd with
  | error e => rfl
  | ok xa =>
    cases delta_arg s.yPos yd with
    | error e => rfl
    | ok ya =>
      cases delta_arg s.zPos zd with
      | error e => rfl
      | ok za => exact alreadyInit_send_pos s xa ya za

theorem alreadyInit_set_axis (s : ArmState) (a : Axis) (v : Value) :
    (set_axis s a v).alreadyInit = s.alreadyInit := by
  cases a <;> rfl

theorem alreadyInit_scan (segs : List (List Char)) (s : ArmState) :
    ∀ r, scan_gcode s segs = r →
      (match r with
       | .error (_, s1) => s1.alreadyInit
       | .ok s1 => s1.alreadyInit) = s.alreadyInit := by
  induction segs generalizing s with
  | nil =>
    intro r hr
    rw [scan_gcode] at hr
    subst hr
    rfl
  | cons seg rest ih =>
    intro r hr
    simp only [scan_gcode] at hr
    cases seg with
    | nil =>
      subst hr
      rfl
    | cons c sfx =>
      by_cases hx : c = 'X'
      · simp only [hx, if_pos rfl] at hr
        cases hnum : numOfString sfx with
        | error e =>
          rw [hnum] at hr
          subst hr
          rfl
        | ok v =>
          rw [hnum] at hr
          have := ih (set_axis s .X v) r hr
          rwa [alreadyInit_set_axis] at this
      · by_cases hy : c = 'Y'
        · simp only [hx, hy, if_neg hx, if_pos rfl] at hr
          cases hnum : numOfString sfx with
          | error e =>
            rw [hnum] at hr
            subst hr
            rfl
          | ok v =>
            rw [hnum] at hr
            have := ih (set_axis s .Y v) r hr
            rwa [alreadyInit_set_axis] at this
        · by_cases hz : c = 'Z'
          · simp only [hx, hy, hz, if_neg hx, if_neg hy, if_pos rfl] at hr
            cases hnum : numOfString sfx with
            | error e =>
              rw [hnum] at hr
              subst hr
              rfl
            | ok v =>
              rw [hnum] at hr
              have := ih (set_axis s .Z v) r hr
              rwa [alreadyInit_set_axis] at this
          · by_cases hg : c = 'G'
            · simp only [hx, hy, hz, hg, if_neg hx, if_neg hy, if_neg hz, if_pos rfl] at hr
              exact ih s r hr
            · simp only [if_neg hx, if_neg hy, if_neg hz, if_neg hg] at hr
              subst hr
              rfl

theorem alreadyInit_gcode_send (s : ArmState) (g : String) :
    (afterRes (gcode_send s g)).alreadyInit = s.alreadyInit := by
  unfold gcode_send
  cases hscan : scan_gcode s (splitChar ' ' g.data) with
  | error e =>
    have := alreadyInit_scan (splitChar ' ' g.data) s (.error e) hscan
    obtain ⟨e', s'⟩ := e
    simpa [afterRes] using this
  | ok s1 =>
    have := alreadyInit_scan (splitChar ' ' g.data) s (.ok s1) hscan
    simp only [] at this
    rw [alreadyInit_priv, this]

theorem alreadyInit_gcode_pos (s : ArmState) (dest : String) :
    (afterRes (gcode_pos s dest)).alreadyInit = s.alreadyInit := by
  have e1 : POS_END_STOP ≠ POS_HOME := by decide
  have e2 : POS_BOTTOM ≠ POS_HOME := by decide
  have e3 : POS_BOTTOM ≠ POS_END_STOP := by decide
  have e4 : POS_REST ≠ POS_HOME := by decide
  have e5 : POS_REST ≠ POS_END_STOP := by decide
  have e6 : POS_REST ≠ POS_BOTTOM := by decide
  by_cases h1 : dest = POS_HOME
  · simp [gcode_pos, gcode_pos_home, h1, alreadyInit_send_pos]
  · by_cases h2 : dest = POS_END_STOP
    · simp [gcode_pos, gcode_pos_end_stop, h1, h2, e1, alreadyInit_send_pos]
    · by_cases h3 : dest = POS_BOTTOM
      · simp [gcode_pos, gcode_pos_bottom, h1, h2, h3, e2, e3, alreadyInit_send_pos]
      · by_cases h4 : dest = POS_REST
        · simp [gcode_pos, gcode_pos_rest, h1, h2, h3, h4, e4, e5, e6, alreadyInit_send_pos]
        · simp [gcode_pos, h1, h2, h3, h4, afterRes]

theorem alreadyInit_attachment_high (s : ArmState) :
    (afterRes (gcode_attachment_high s)).alreadyInit = s.alreadyInit := by
  have e1 : ATTACHMENT_FAN ≠ ATTACHMENT_GRIPPER := by decide
  by_cases h1 : s.attachment = ATTACHMENT_GRIPPER
  · simp [gcode_attachment_high, gcode_close_gripper, h1, alreadyInit_priv]
  · by_cases h2 : s.attachment = ATTACHMENT_FAN
    · simp [gcode_attachment_high, gcode_enable_fan, h1, h2, e1, alreadyInit_priv]
    · simp [gcode_attachment_high, h1, h2, afterRes]

theorem alreadyInit_attachment_low (s : ArmState) :
    (afterRes (gcode_attachment_low s)).alreadyInit = s.alreadyInit := by
  have e1 : ATTACHMENT_FAN ≠ ATTACHMENT_GRIPPER := by decide
  by_cases h1 : s.attachment = ATTACHMENT_GRIPPER
  · simp [gcode_attachment_low, gcode_open_gripper, h1, alreadyInit_priv]
  · by_cases h2 : s.attachment = ATTACHMENT_FAN
    · simp [gcode_attachment_low, gcode_disable_fan, h1, h2, e1, alreadyInit_priv]
    · simp [gcode_attachment_low, h1, h2, afterRes]

theorem init_seq_skip (s : ArmState) (h : s.alreadyInit = true) :
    init_seq s = .ok ((), s) := by
  unfold init_seq
  simp [h]

theorem alreadyInit_monotone_runOp (s : ArmState) (op : ArmOp)
    (h : s.alreadyInit = true) : (runOp s op).alreadyInit = true := by
  cases op with
  | openConnection opens =>
    simp only [runOp, open_connection]
    by_cases hp : s.portPresent = true
    · rw [if_pos hp]
      have hinit : ((if opens then { s with portOpen := true } else s) : ArmState).alreadyInit = true := by
        cases opens <;> simpa using h
      rw [init_seq_skip _ hinit]
      exact hinit
    · rw [if_neg hp]
      exact h
  | closeConnection =>
    by_cases hp : s.portPresent = true
    · simp [runOp, close_connection, hp, afterRes, h]
    · simp [runOp, close_connection, hp, afterRes, h]
  | initSeq =>
    simp [runOp, init_seq_skip s h, afterRes, h]
  | attachmentHigh => rw [runOp, alreadyInit_attachment_high]; exact h
  | attachmentLow => rw [runOp, alreadyInit_attachment_low]; exact h
  | enableMotors => rw [runOp, gcode_enable_motors, alreadyInit_priv]; exact h
  | disableMotors => rw [runOp, gcode_disable_motors, alreadyInit_priv]; exact h
  | closeGripper t => rw [runOp, gcode_close_gripper, alreadyInit_priv]; exact h
  | openGripper t => rw [runOp, gcode_open_gripper, alreadyInit_priv]; exact h
  | enableFan => rw [runOp, gcode_enable_fan, alreadyInit_priv]; exact h
  | disableFan => rw [runOp, gcode_disable_fan, alreadyInit_priv]; exact h
  | sendPos x y z => rw [runOp, alreadyInit_send_pos]; exact h
  | posPreset dest => rw [runOp, alreadyInit_gcode_pos]; exact h
  | xCoarsePos => rw [runOp, gcode_x_coarse_pos, alreadyInit_send_pos_delta]; exact h
  | yCoarsePos => rw [runOp, gcode_y_coarse_pos, alreadyInit_send_pos_delta]; exact h
  | zCoarsePos => rw [runOp, gcode_z_coarse_pos, alreadyInit_send_pos_delta]; exact h
  | xCoarseNeg => rw [runOp, gcode_x_coarse_neg, alreadyInit_send_pos_delta]; exact h
  | yCoarseNeg => rw [runOp, gcode_y_coarse_neg, alreadyInit_send_pos_delta]; exact h
  | zCoarseNeg => rw [runOp, gcode_z_coarse_neg, alreadyInit_send_pos_delta]; exact h
  | xFinePos => rw [runOp, gcode_x_fine_pos, alreadyInit_send_pos_delta]; exact h
  | yFinePos => rw [runOp, gcode_y_fine_pos, alreadyInit_send_pos_delta]; exact h
  | zFinePos => rw [runOp, gcode_z_fine_pos, alreadyInit_send_pos_delta]; exact h
  | xFineNeg => rw [runOp, gcode_x_fine_neg, alreadyInit_send_pos_delta]; exact h
  | yFineNeg => rw [runOp, gcode_y_fine_neg, alreadyInit_send_pos_delta]; exact h
  | zFineNeg => rw [runOp, gcode_z_fine_neg, alreadyInit_send_pos_delta]; exact h
  | sendPosDelta xd yd zd => rw [runOp, alreadyInit_send_pos_delta]; exact h
  | sendRaw g => rw [runOp, alreadyInit_gcode_send]; exact h
  | setCoarseStep val => exact h
  | setFineStep val => exact h

/-! ### Helper facts about delta resolution -/

theorem pos_plus_some_ok (cv dv : Value) : ∃ v, pos_plus (some cv) dv = .ok v := by
  cases cv <;> cases dv <;> exact ⟨_, rfl⟩

theorem delta_arg_err (cur d : Option Value) (h : axis_bad cur d) :
    delta_arg cur d = .error NonePlusError := by
  obtain ⟨dv, hd, ht, hc⟩ := h
  subst hd
  subst hc
  simp [delta_arg, ht, pos_plus, Except.map]

theorem delta_arg_ok (cur d : Option Value) (h : ¬ axis_bad cur d) :
    ∃ a, delta_arg cur d = .ok a := by
  cases d with
  | none => exact ⟨cur, rfl⟩
  | some dv =>
    by_cases ht : truthy dv = true
    · cases cur with
      | none => exact absurd ⟨dv, rfl, ht, rfl⟩ h
      | some cv =>
        obtain ⟨v, hv⟩ := pos_plus_some_ok cv dv
        exact ⟨some v, by simp [delta_arg, ht, hv, Except.map]⟩
    · have ht' : truthy dv = false := by
        revert ht
        cases truthy dv <;> simp
      exact ⟨cur, by simp [delta_arg, ht']⟩

/-! ### Claim C8 — transport guards of the private send -/

/-- C8: every send operation reaching the private encode-and-transmit step
raises ConfigurationError when no transport is configured, raises
ConnectionError when a transport is configured but not open, and in both
failure cases writes no bytes (the trace is unchanged, and the rest of the
state too, since the error carries `s` itself). -/
theorem claim_C8 (s : ArmState) (gcode : String) :
    (s.portPresent = false →
      gcode_send_priv s gcode = .error (ConfigurationError, s)) ∧
    (s.portPresent = true → s.portOpen = false →
      gcode_send_priv s gcode = .error (ConnectionError, s)) ∧
    (is_connection_open s = false →
      (afterRes (gcode_send_priv s gcode)).trace = s.trace) := by
  refine ⟨?_, ?_, ?_⟩
  · intro h
    simp [gcode_send_priv, h]
  · intro h1 h2
    simp [gcode_send_priv, is_connection_not_open, is_connection_open, h1, h2]
  · intro h
    by_cases h1 : s.portPresent = false
    · simp [gcode_send_priv, h1, afterRes]
    · have h2 : s.portOpen = false := by
        revert h
        simp [is_connection_open, h1]
      simp [gcode_send_priv, is_connection_not_open, is_connection_open, h1, h2, afterRes]

theorem claim_C8_witness :
    gcode_send_priv sampleNoPort GCODE_ENABLE_MOTORS = .error (ConfigurationError, sampleNoPort) ∧
    gcode_send_priv sampleClosed GCODE_ENABLE_MOTORS = .error (ConnectionError, sampleClosed) ∧
    (afterRes (gcode_send_priv sampleClosed GCODE_ENABLE_MOTORS)).trace = sampleClosed.trace :=
  ⟨(claim_C8 sampleNoPort GCODE_ENABLE_MOTORS).1 rfl,
   (claim_C8 sampleClosed GCODE_ENABLE_MOTORS).2.1 rfl rfl,
   (claim_C8 sampleClosed GCODE_ENABLE_MOTORS).2.2 rfl⟩

/-! ### Claim C2 — serial port auto-discovery -/

/-- C2 counterexample: the claim says discovery selects the FIRST matching
device and fails with DeviceNotFoundError when none match.  On the device
list ["ttyUSB0", "ttyUSB1"] the code selects "ttyUSB1" (the last match,
because `reduce(lambda acc, val: val, seq)` keeps the final element), and
on ["com1"] it raises the TypeError of reducing an empty sequence, never
reaching the error the claim names.  The spec-modelled discovery differs
on both inputs. -/
theorem claim_C2_cex :
    get_default_serial_port ["ttyUSB0", "ttyUSB1"] = .ok ⟨"ttyUSB1", 9600, 2⟩ ∧
    get_default_serial_port_spec ["ttyUSB0", "ttyUSB1"] = .ok ⟨"ttyUSB0", 9600, 2⟩ ∧
    ("ttyUSB1" : String) ≠ "ttyUSB0" ∧
    get_default_serial_port ["com1"] =
      .error (.typeError "reduce of empty iterable with no initial value") ∧
    get_default_serial_port_spec ["com1"] = .error (.exception "DeviceNotFoundError") := by
  decide

/-- C2 as amended: auto-discovery selects the LAST available device whose
identifier case-insensitively contains "usb" (with baud rate 9600 and
timeout 2), and when no identifier matches it fails with the TypeError of
reducing an empty sequence — the DeviceNotFoundError raise in the source
is unreachable. -/
theorem claim_C2 (ports : List String) :
    (ports.filter usb_match = [] →
      get_default_serial_port ports =
        .error (.typeError "reduce of empty iterable with no initial value")) ∧
    (∀ pre port, ports.filter usb_match = pre ++ [port] →
      get_default_serial_port ports = .ok ⟨port, 9600, 2⟩) := by
  constructor
  · intro h
    simp [get_default_serial_port, h]
  · intro pre port h
    simp [get_default_serial_port, h]

theorem claim_C2_witness :
    get_default_serial_port ["com1"] =
      .error (.typeError "reduce of empty iterable with no initial value") ∧
    get_default_serial_port ["ttyUSB0", "ttyUSB1"] = .ok ⟨"ttyUSB1", 9600, 2⟩ :=
  ⟨(claim_C2 ["com1"]).1 (by decide),
   (claim_C2 ["ttyUSB0", "ttyUSB1"]).2 ["ttyUSB0"] "ttyUSB1" (by decide)⟩

/-! ### Claim C3 — omitted axis whose tracked value is unset -/

/-- C3 counterexample: the claim says that with an omitted axis whose
tracked value is still unset, the call still encodes and sends a command
whose literal for that axis is the rendering of None.  In fact the
formatting step raises TypeError (None rejects the `.1f` format spec), the
call sends nothing, and the state is unchanged. -/
theorem claim_C3_cex :
    gcode_send_pos sampleOpenFresh (some (.intV 0)) (some (.intV 120)) none =
      .error (NoneFormatError, sampleOpenFresh) ∧
    (afterRes (gcode_send_pos sampleOpenFresh (some (.intV 0)) (some (.intV 120)) none)).trace
      = [] := by
  decide

/-- C3 as amended: when an axis argument is omitted and that axis's tracked
value is still unset (and likewise when a provided axis resolves to None),
`gcode_send_pos` raises the TypeError of formatting None with `.1f`; no
command is encoded or sent and the session state is unchanged (the error
carries `s` itself). -/
theorem claim_C3 (s : ArmState) (x y z : Option Value) :
    (resolve_axis s.xPos x = none ∨ resolve_axis s.yPos y = none ∨
      resolve_axis s.zPos z = none) →
    gcode_send_pos s x y z = .error (NoneFormatError, s) := by
  intro h
  rcases h with h | h | h
  · simp [gcode_send_pos, h, fmt_axis]
  · cases hx : resolve_axis s.xPos x with
    | none => simp [gcode_send_pos, hx, fmt_axis]
    | some vx => simp [gcode_send_pos, hx, h, fmt_axis]
  · cases hx : resolve_axis s.xPos x with
    | none => simp [gcode_send_pos, hx, fmt_axis]
    | some vx =>
      cases hy : resolve_axis s.yPos y with
      | none => simp [gcode_send_pos, hx, hy, fmt_axis]
      | some vy => simp [gcode_send_pos, hx, hy, h, fmt_axis]

theorem claim_C3_witness :
    gcode_send_pos sampleOpenFresh none (some (.intV 120)) (some (.intV 120)) =
      .error (NoneFormatError, sampleOpenFresh) :=
  claim_C3 sampleOpenFresh none (some (.intV 120)) (some (.intV 120)) (Or.inl rfl)

/-! ### Claim C10 — relative moves on unset axes -/

/-- C10: on a session where some axis is still unset, a truthy
(nonzero) delta on that axis makes `gcode_send_pos_delta` raise TypeError
while evaluating the argument expressions, before any command is encoded
or any bytes written (the error carries `s` unchanged); and whenever every
axis carrying a truthy delta has a set position, the argument evaluation
succeeds and the call reduces to `gcode_send_pos` on the resolved
targets — the error branch is unreachable. -/
theorem claim_C10 (s : ArmState) (xd yd zd : Option Value) :
    ((axis_bad s.xPos xd ∨ axis_bad s.yPos yd ∨ axis_bad s.zPos zd) →
      gcode_send_pos_delta s xd yd zd = .error (NonePlusError, s)) ∧
    (¬ axis_bad s.xPos xd → ¬ axis_bad s.yPos yd → ¬ axis_bad s.zPos zd →
      ∃ xa ya za,
        delta_arg s.xPos xd = .ok xa ∧ delta_arg s.yPos yd = .ok ya ∧
        delta_arg s.zPos zd = .ok za ∧
        gcode_send_pos_delta s xd yd zd = gcode_send_pos s xa ya za) := by
  constructor
  · intro h
    by_cases hx : axis_bad s.xPos xd
    · simp [gcode_send_pos_delta, delta_arg_err _ _ hx]
    · obtain ⟨xa, hxa⟩ := delta_arg_ok _ _ hx
      by_cases hy : axis_bad s.yPos yd
      · simp [gcode_send_pos_delta, hxa, delta_arg_err _ _ hy]
      · obtain ⟨ya, hya⟩ := delta_arg_ok _ _ hy
        have hz : axis_bad s.zPos zd := by tauto
        simp [gcode_send_pos_delta, hxa, hya, delta_arg_err _ _ hz]
  · intro hx hy hz
    obtain ⟨xa, hxa⟩ := delta_arg_ok _ _ hx
    obtain ⟨ya, hya⟩ := delta_arg_ok _ _ hy
    obtain ⟨za, hza⟩ := delta_arg_ok _ _ hz
    exact ⟨xa, ya, za, hxa, hya, hza, by simp [gcode_send_pos_delta, hxa, hya, hza]⟩

theorem claim_C10_witness :
    gcode_send_pos_delta sampleOpenFresh (some (.intV 5)) none none =
      .error (NonePlusError, sampleOpenFresh) ∧
    (∃ xa ya za,
      delta_arg sampleOpenHome.xPos (some (.intV 5)) = .ok xa ∧
      delta_arg sampleOpenHome.yPos none = .ok ya ∧
      delta_arg sampleOpenHome.zPos none = .ok za ∧
      gcode_send_pos_delta sampleOpenHome (some (.intV 5)) none none =
        gcode_send_pos sampleOpenHome xa ya za) :=
  ⟨(claim_C10 sampleOpenFresh (some (.intV 5)) none none).1
      (Or.inl ⟨.intV 5, rfl, by decide, rfl⟩),
   (claim_C10 sampleOpenHome (some (.intV 5)) none none).2
      (by rintro ⟨dv, hd, ht, hc⟩; exact absurd hc (by decide))
      (by rintro ⟨dv, hd, ht, hc⟩; cases hd)
      (by rintro ⟨dv, hd, ht, hc⟩; cases hd)⟩

/-! ### Claim C9 — attachment activation pairs -/

/-- C9: on an open session, for a Gripper attachment activate then
deactivate sends exactly "M3 T10" (default step count 10) then "M5 T10",
in that order with no other commands interleaved (the trace gains exactly
those two writes); for a Fan attachment the same pair sends "M106" then
"M107"; and dispatch on any attachment tag outside the two variants raises
the unimplemented-attachment error naming the offending tag. -/
theorem claim_C9 (s : ArmState) :
    (s.portPresent = true → s.portOpen = true → s.attachment = ATTACHMENT_GRIPPER →
      ∃ s1 s2 n1 n2,
        gcode_attachment_high s = .ok (n1, s1) ∧
        s1.trace = s.trace ++ [.write "M3 T10\r\n"] ∧
        gcode_attachment_low s1 = .ok (n2, s2) ∧
        s2.trace = s.trace ++ [.write "M3 T10\r\n", .write "M5 T10\r\n"]) ∧
    (s.portPresent = true → s.portOpen = true → s.attachment = ATTACHMENT_FAN →
      ∃ s1 s2 n1 n2,
        gcode_attachment_high s = .ok (n1, s1) ∧
        s1.trace = s.trace ++ [.write "M106\r\n"] ∧
        gcode_attachment_low s1 = .ok (n2, s2) ∧
        s2.trace = s.trace ++ [.write "M106\r\n", .write "M107\r\n"]) ∧
    (s.attachment ≠ ATTACHMENT_GRIPPER → s.attachment ≠ ATTACHMENT_FAN →
      gcode_attachment_high s =
        .error (.exception ("unimplemented attachment type: " ++ Int.repr s.attachment), s) ∧
      gcode_attachment_low s =
        .error (.exception ("unimplemented attachment type: " ++ Int.repr s.attachment), s)) := by
  have e1 : GCODE_OPEN_GRIPPER 10 ++ "\r\n" = "M3 T10\r\n" := by decide
  have e2 : GCODE_CLOSE_GRIPPER 10 ++ "\r\n" = "M5 T10\r\n" := by decide
  have e3 : GCODE_ENABLE_FAN ++ "\r\n" = "M106\r\n" := by decide
  have e4 : GCODE_DISABLE_FAN ++ "\r\n" = "M107\r\n" := by decide
  refine ⟨?_, ?_, ?_⟩
  · intro hp ho hA
    refine ⟨{ s with trace := s.trace ++ [.write "M3 T10\r\n"] },
            { s with trace := s.trace ++ [.write "M3 T10\r\n", .write "M5 T10\r\n"] },
            ("M3 T10\r\n" : String).utf8ByteSize, ("M5 T10\r\n" : String).utf8ByteSize,
            ?_, rfl, ?_, rfl⟩
    · simp [gcode_attachment_high, gcode_close_gripper, gcode_send_priv,
            is_connection_not_open, is_connection_open, hp, ho, hA, e1]
    · simp [gcode_attachment_low, gcode_open_gripper, gcode_send_priv,
            is_connection_not_open, is_connection_open, hp, ho, hA, e2]
  · intro hp ho hA
    have eF : ATTACHMENT_FAN ≠ ATTACHMENT_GRIPPER := by decide
    refine ⟨{ s with trace := s.trace ++ [.write "M106\r\n"] },
            { s with trace := s.trace ++ [.write "M106\r\n", .write "M107\r\n"] },
            ("M106\r\n" : String).utf8ByteSize, ("M107\r\n" : String).utf8ByteSize,
            ?_, rfl, ?_, rfl⟩
    · simp [gcode_attachment_high, gcode_enable_fan, gcode_send_priv,
            is_connection_not_open, is_connection_open, hp, ho, hA, eF, e3]
    · simp [gcode_attachment_low, gcode_disable_fan, gcode_send_priv,
            is_connection_not_open, is_connection_open, hp, ho, hA, eF, e4]
  · intro h1 h2
    exact ⟨by simp [gcode_attachment_high, h1, h2],
           by simp [gcode_attachment_low, h1, h2]⟩

theorem claim_C9_witness :
    (∃ s1 s2 n1 n2,
      gcode_attachment_high sampleOpenFresh = .ok (n1, s1) ∧
      s1.trace = sampleOpenFresh.trace ++ [.write "M3 T10\r\n"] ∧
      gcode_attachment_low s1 = .ok (n2, s2) ∧
      s2.trace = sampleOpenFresh.trace ++ [.write "M3 T10\r\n", .write "M5 T10\r\n"]) ∧
    (∃ s1 s2 n1 n2,
      gcode_attachment_high sampleOpenFan = .ok (n1, s1) ∧
      s1.trace = sampleOpenFan.trace ++ [.write "M106\r\n"] ∧
      gcode_attachment_low s1 = .ok (n2, s2) ∧
      s2.trace = sampleOpenFan.trace ++ [.write "M106\r\n", .write "M107\r\n"]) ∧
    gcode_attachment_high sampleBadTag =
      .error (.exception ("unimplemented attachment type: " ++ Int.repr sampleBadTag.attachment),
              sampleBadTag) :=
  ⟨(claim_C9 sampleOpenFresh).1 rfl rfl rfl,
   (claim_C9 sampleOpenFan).2.1 rfl rfl rfl,
   ((claim_C9 sampleBadTag).2.2 (by decide) (by decide)).1⟩

/-! ### Claim C1 — failed sends still move the tracked position -/

/-- C1 counterexample: the claim says a motion send on a session whose
transport is absent fails with the position left exactly as before.  On a
fresh portless session, gcode_send_pos with arguments (1, 2, 3) does fail
(ConfigurationError), but the x position has already changed from unset to
1 — the position commit precedes the transmit step. -/
theorem claim_C1_cex :
    gcode_send_pos sampleNoPort (some (.intV 1)) (some (.intV 2)) (some (.intV 3)) =
      .error (ConfigurationError,
        { sampleNoPort with
          xPos := some (.intV 1), yPos := some (.intV 2), zPos := some (.intV 3) }) ∧
    (afterRes (gcode_send_pos sampleNoPort (some (.intV 1)) (some (.intV 2)) (some (.intV 3)))).xPos
      ≠ sampleNoPort.xPos := by
  decide

/-- C1 as amended: with the transport absent or present-but-not-open,
gcode_send_pos on fully-resolved axes fails (ConfigurationError,
respectively ConnectionError) and writes no bytes, but the tracked
position has ALREADY been updated to the resolved target for all three
axes — the commit happens before dispatch, not as a side effect of a
successful dispatch; gcode_send_pos_delta reaches the same path after its
argument evaluation succeeds. -/
theorem claim_C1 (s : ArmState) (x y z : Value) :
    is_connection_open s = false →
    ((s.portPresent = false →
       gcode_send_pos s (some x) (some y) (some z) =
         .error (ConfigurationError, update_pos_num s (some x) (some y) (some z))) ∧
     (s.portPresent = true →
       gcode_send_pos s (some x) (some y) (some z) =
         .error (ConnectionError, update_pos_num s (some x) (some y) (some z))) ∧
     (update_pos_num s (some x) (some y) (some z)).xPos = some x ∧
     (update_pos_num s (some x) (some y) (some z)).yPos = some y ∧
     (update_pos_num s (some x) (some y) (some z)).zPos = some z ∧
     (update_pos_num s (some x) (some y) (some z)).trace = s.trace ∧
     (∀ xd yd zd xa ya za,
        delta_arg s.xPos xd = .ok xa → delta_arg s.yPos yd = .ok ya →
        delta_arg s.zPos zd = .ok za →
        gcode_send_pos_delta s xd yd zd = gcode_send_pos s xa ya za)) := by
  intro hopen
  refine ⟨?_, ?_, rfl, rfl, rfl, rfl, ?_⟩
  · intro hp
    simp [gcode_send_pos, resolve_axis, fmt_axis, update_pos_num, gcode_send_priv, hp]
  · intro hp
    have ho : s.portOpen = false := by
      revert hopen
      simp [is_connection_open, hp]
    simp [gcode_send_pos, resolve_axis, fmt_axis, update_pos_num, gcode_send_priv,
          is_connection_not_open, is_connection_open, hp, ho]
  · intro xd yd zd xa ya za hx hy hz
    simp [gcode_send_pos_delta, hx, hy, hz]

theorem claim_C1_witness :
    gcode_send_pos sampleClosed (some (.intV 7)) (some (.intV 8)) (some (.intV 9)) =
      .error (ConnectionError,
        update_pos_num sampleClosed (some (.intV 7)) (some (.intV 8)) (some (.intV 9))) :=
  ((claim_C1 sampleClosed (.intV 7) (.intV 8) (.intV 9) rfl).2.1 rfl)

/-! ### Claim C6 — zero or omitted deltas hold position -/

/-- C6: on an open session whose axes are all set, gcode_send_pos_delta
with every delta either omitted or falsy (0 or 0.0) emits a motion command
whose literals are the renderings of the current tracked values — in
particular the axis with the zero delta keeps its prior literal — and the
tracked position after the call equals the position before it. -/
theorem claim_C6 (s : ArmState) (a b c : Value)
    (hp : s.portPresent = true) (ho : s.portOpen = true)
    (hx : s.xPos = some a) (hy : s.yPos = some b) (hz : s.zPos = some c)
    (xd yd zd : Option Value)
    (hxd : xd = none ∨ ∃ dv, xd = some dv ∧ truthy dv = false)
    (hyd : yd = none ∨ ∃ dv, yd = some dv ∧ truthy dv = false)
    (hzd : zd = none ∨ ∃ dv, zd = some dv ∧ truthy dv = false) :
    ∃ n s',
      gcode_send_pos_delta s xd yd zd = .ok (n, s') ∧
      s'.xPos = s.xPos ∧ s'.yPos = s.yPos ∧ s'.zPos = s.zPos ∧
      s'.trace = s.trace ++
        [.write (GCODE_G1 (fmtValue a) (fmtValue b) (fmtValue c) ++ "\r\n")] := by
  have dx : delta_arg (some a) xd = .ok (some a) := by
    rcases hxd with h | ⟨dv, hd, ht⟩
    · rw [h]; rfl
    · rw [hd]; simp [delta_arg, ht]
  have dy : delta_arg (some b) yd = .ok (some b) := by
    rcases hyd with h | ⟨dv, hd, ht⟩
    · rw [h]; rfl
    · rw [hd]; simp [delta_arg, ht]
  have dz : delta_arg (some c) zd = .ok (some c) := by
    rcases hzd with h | ⟨dv, hd, ht⟩
    · rw [h]; rfl
    · rw [hd]; simp [delta_arg, ht]
  refine ⟨(GCODE_G1 (fmtValue a) (fmtValue b) (fmtValue c) ++ "\r\n").utf8ByteSize,
          { s with xPos := some a, yPos := some b, zPos := some c,
                   trace := s.trace ++
                     [.write (GCODE_G1 (fmtValue a) (fmtValue b) (fmtValue c) ++ "\r\n")] },
          ?_, by simp [hx], by simp [hy], by simp [hz], rfl⟩
  simp [gcode_send_pos_delta, hx, hy, hz, dx, dy, dz, gcode_send_pos, resolve_axis,
        fmt_axis, update_pos_num, gcode_send_priv,
        is_connection_not_open, is_connection_open, hp, ho]

theorem claim_C6_witness :
    ∃ n s',
      gcode_send_pos_delta sampleOpenHome none none (some (.intV 0)) = .ok (n, s') ∧
      s'.xPos = sampleOpenHome.xPos ∧ s'.yPos = sampleOpenHome.yPos ∧
      s'.zPos = sampleOpenHome.zPos ∧
      s'.trace = sampleOpenHome.trace ++
        [.write (GCODE_G1 (fmtValue (.intV 0)) (fmtValue (.intV 120)) (fmtValue (.intV 120))
          ++ "\r\n")] :=
  claim_C6 sampleOpenHome (.intV 0) (.intV 120) (.intV 120) rfl rfl rfl rfl rfl
    none none (some (.intV 0)) (Or.inl rfl) (Or.inl rfl)
    (Or.inr ⟨.intV 0, rfl, by decide⟩)

/-! ### Claim C5 — formatting of the absolute move -/

theorem fmtFloat1_shape (d : Dec) :
    ∃ pre dig, fmtFloat1 d = pre ++ "." ++ dig ∧ dig.length = 1 ∧
      '.' ∉ pre.data ∧ '.' ∉ dig.data := by
  have sign_no_dot : ∀ n : Int, '.' ∉ ((if n < 0 then "-" else "") : String).data := by
    intro n
    by_cases hneg : n < 0
    · rw [if_pos hneg]
      decide
    · rw [if_neg hneg]
      decide
  obtain ⟨num, e⟩ := d
  cases e with
  | zero =>
    refine ⟨(if (num * 10 : Int) < 0 then "-" else "") ++ Nat.repr ((num * 10).natAbs / 10),
            Nat.repr ((num * 10).natAbs % 10), rfl,
            natRepr_len_one _ (Nat.mod_lt _ (by decide)), ?_, natRepr_no_dot _⟩
    intro hmem
    rw [String.data_append] at hmem
    rcases List.mem_append.mp hmem with h | h
    · exact sign_no_dot _ h
    · exact natRepr_no_dot _ h
  | succ e' =>
    refine ⟨(if (rndHalfEven num (10 ^ e') : Int) < 0 then "-" else "") ++
              Nat.repr ((rndHalfEven num (10 ^ e')).natAbs / 10),
            Nat.repr ((rndHalfEven num (10 ^ e')).natAbs % 10), rfl,
            natRepr_len_one _ (Nat.mod_lt _ (by decide)), ?_, natRepr_no_dot _⟩
    intro hmem
    rw [String.data_append] at hmem
    rcases List.mem_append.mp hmem with h | h
    · exact sign_no_dot _ h
    · exact natRepr_no_dot _ h

/-- C5: on an open session, sending the absolute move (0, 120, 120)
transmits exactly the bytes of "G1 X0 Y120 Z120" followed by CR+LF (17
bytes) and sets the tracked position to (0, 120, 120); in general an
`int`-typed coordinate renders with no decimal point, a `float`-typed
coordinate renders with exactly one digit after the decimal point, and the
float 19.5 renders as the literal "19.5" — not "19.50" and not "19". -/
theorem claim_C5 :
    (∀ s : ArmState, s.portPresent = true → s.portOpen = true →
      gcode_send_pos s (some (.intV 0)) (some (.intV 120)) (some (.intV 120)) =
        .ok (17, { s with xPos := some (.intV 0), yPos := some (.intV 120),
                          zPos := some (.intV 120),
                          trace := s.trace ++ [.write "G1 X0 Y120 Z120\r\n"] })) ∧
    (∀ n : Int, '.' ∉ (fmtValue (.intV n)).data) ∧
    (∀ d : Dec, ∃ pre dig, fmtValue (.floatV d) = pre ++ "." ++ dig ∧ dig.length = 1 ∧
      '.' ∉ pre.data ∧ '.' ∉ dig.data) ∧
    (fmtValue (.floatV ⟨195, 1⟩) = "19.5" ∧ ("19.5" : String) ≠ "19.50" ∧
      ("19.5" : String) ≠ "19") := by
  have ecmd : GCODE_G1 (fmtValue (.intV 0)) (fmtValue (.intV 120)) (fmtValue (.intV 120)) =
      "G1 X0 Y120 Z120" := by decide
  have eapp : ("G1 X0 Y120 Z120" : String) ++ "\r\n" = "G1 X0 Y120 Z120\r\n" := by decide
  have esz : ("G1 X0 Y120 Z120\r\n" : String).utf8ByteSize = 17 := by decide
  refine ⟨?_, ?_, ?_, by decide⟩
  · intro s hp ho
    simp [gcode_send_pos, resolve_axis, fmt_axis, update_pos_num, gcode_send_priv,
          is_connection_not_open, is_connection_open, hp, ho, ecmd, eapp, esz]
  · intro n
    exact intRepr_no_dot n
  · intro d
    exact fmtFloat1_shape d

theorem claim_C5_witness :
    gcode_send_pos sampleOpenFresh (some (.intV 0)) (some (.intV 120)) (some (.intV 120)) =
      .ok (17, { sampleOpenFresh with
                 xPos := some (.intV 0), yPos := some (.intV 120), zPos := some (.intV 120),
                 trace := sampleOpenFresh.trace ++ [.write "G1 X0 Y120 Z120\r\n"] }) :=
  claim_C5.1 sampleOpenFresh rfl rfl

/-! ### Claim C4 — the token scan of raw sends -/

/-- C4 counterexample: the claim speaks of the whitespace-delimited tokens
of the command.  The source splits on single space characters only, so for
the tab-separated command "G1\tX10" the whitespace tokenization contains
the axis token "X10", yet the scan sees one single token "G1\tX10"
(leading G, no position action) and the x position stays 0 instead of
becoming 10. -/
theorem claim_C4_cex :
    whitespace_tokens "G1\tX10" = ["G1", "X10"] ∧
    gcode_send { sampleOpenFresh with xPos := some (.intV 0) } "G1\tX10" =
      .ok (8, { sampleOpenFresh with
                xPos := some (.intV 0), trace := [.write "G1\tX10\r\n"] }) ∧
    some (Value.intV 0) ≠ some (Value.intV 10) := by
  decide

/-- C4 as amended: for every command string given to gcode_send, the
pieces obtained by splitting on single space characters are scanned left
to right — a nonempty piece beginning with X, Y, or Z sets that axis's
tracked position to its suffix parsed as integer if possible else
fractional; a piece beginning with G changes no position and scanning
continues; the first piece beginning with any other character stops the
scan — and gcode_send("G1 X10 Y20 ? Z30") on an open session at (0, 0, 7)
sets X to 10 and Y to 20, leaves Z at 7, and transmits the command. -/
theorem claim_C4 :
    (∀ s : ArmState, scan_gcode s [] = .ok s) ∧
    (∀ (s : ArmState) (sfx : List Char) (rest : List (List Char)) (v : Value),
      numOfString sfx = .ok v →
        scan_gcode s (('X' :: sfx) :: rest) = scan_gcode (set_axis s .X v) rest ∧
        scan_gcode s (('Y' :: sfx) :: rest) = scan_gcode (set_axis s .Y v) rest ∧
        scan_gcode s (('Z' :: sfx) :: rest) = scan_gcode (set_axis s .Z v) rest) ∧
    (∀ (s : ArmState) (sfx : List Char) (rest : List (List Char)),
      scan_gcode s (('G' :: sfx) :: rest) = scan_gcode s rest) ∧
    (∀ (s : ArmState) (c : Char) (sfx : List Char) (rest : List (List Char)),
      c ≠ 'X' → c ≠ 'Y' → c ≠ 'Z' → c ≠ 'G' →
      scan_gcode s ((c :: sfx) :: rest) = .ok s) ∧
    (gcode_send sampleScan "G1 X10 Y20 ? Z30" =
      .ok (18, { sampleScan with
                 xPos := some (.intV 10), yPos := some (.intV 20),
                 trace := [.write "G1 X10 Y20 ? Z30\r\n"] })) := by
  refine ⟨fun s => rfl, ?_, ?_, ?_, by decide⟩
  · intro s sfx rest v hnum
    have nyx : ('Y' : Char) ≠ 'X' := by decide
    have nzx : ('Z' : Char) ≠ 'X' := by decide
    have nzy : ('Z' : Char) ≠ 'Y' := by decide
    exact ⟨by simp [scan_gcode, hnum],
           by simp [scan_gcode, hnum, nyx],
           by simp [scan_gcode, hnum, nzx, nzy]⟩
  · intro s sfx rest
    have ngx : ('G' : Char) ≠ 'X' := by decide
    have ngy : ('G' : Char) ≠ 'Y' := by decide
    have ngz : ('G' : Char) ≠ 'Z' := by decide
    simp [scan_gcode, ngx, ngy, ngz]
  · intro s c sfx rest hX hY hZ hG
    simp [scan_gcode, hX, hY, hZ, hG]

theorem claim_C4_witness :
    scan_gcode sampleOpenFresh (('X' :: ['1', '0']) :: []) =
      scan_gcode (set_axis sampleOpenFresh .X (.intV 10)) [] ∧
    scan_gcode sampleOpenFresh (('?' :: []) :: [['Z', '3', '0']]) = .ok sampleOpenFresh :=
  ⟨(claim_C4.2.1 sampleOpenFresh ['1', '0'] [] (.intV 10) (by decide)).1,
   claim_C4.2.2.2.1 sampleOpenFresh '?' [] [['Z', '3', '0']]
     (by decide) (by decide) (by decide) (by decide)⟩

/-! ### Claim C7 — the initialization sequencer -/

/-- C7: the first run of the initialization sequence on an open session
waits the 1.5-second settle delay and then sends, in order, exactly:
enable motors ("M17"), move to the end-stop preset
("G1 X0.0 Y19.5 Z134.0"), and set the attachment to its low/neutral state
("M5 T10" for a Gripper session, "M107" for a Fan session), and marks the
session initialized; a run on an already-initialized session performs no
I/O and returns the state unchanged; and no operation of the session's
lifetime alphabet ever resets the initialized flag once it is true. -/
theorem claim_C7 :
    (∀ s : ArmState, s.alreadyInit = false → s.portPresent = true → s.portOpen = true →
      s.attachment = ATTACHMENT_GRIPPER →
      init_seq s = .ok ((),
        { s with xPos := some (.floatV ⟨0, 1⟩), yPos := some (.floatV ⟨195, 1⟩),
                 zPos := some (.floatV ⟨1340, 1⟩), alreadyInit := true,
                 trace := s.trace ++
                   [.sleep ⟨15, 1⟩, .write "M17\r\n", .write "G1 X0.0 Y19.5 Z134.0\r\n",
                    .write "M5 T10\r\n"] })) ∧
    (∀ s : ArmState, s.alreadyInit = false → s.portPresent = true → s.portOpen = true →
      s.attachment = ATTACHMENT_FAN →
      init_seq s = .ok ((),
        { s with xPos := some (.floatV ⟨0, 1⟩), yPos := some (.floatV ⟨195, 1⟩),
                 zPos := some (.floatV ⟨1340, 1⟩), alreadyInit := true,
                 trace := s.trace ++
                   [.sleep ⟨15, 1⟩, .write "M17\r\n", .write "G1 X0.0 Y19.5 Z134.0\r\n",
                    .write "M107\r\n"] })) ∧
    (∀ s : ArmState, s.alreadyInit = true → init_seq s = .ok ((), s)) ∧
    (∀ (s : ArmState) (op : ArmOp), s.alreadyInit = true → (runOp s op).alreadyInit = true) := by
  have e1 : GCODE_ENABLE_MOTORS ++ "\r\n" = "M17\r\n" := by decide
  have e2 : GCODE_G1 (fmtValue (.floatV ⟨0, 1⟩)) (fmtValue (.floatV ⟨195, 1⟩))
      (fmtValue (.floatV ⟨1340, 1⟩)) ++ "\r\n" = "G1 X0.0 Y19.5 Z134.0\r\n" := by decide
  have e3 : GCODE_CLOSE_GRIPPER 10 ++ "\r\n" = "M5 T10\r\n" := by decide
  have e4 : GCODE_DISABLE_FAN ++ "\r\n" = "M107\r\n" := by decide
  have eF : ATTACHMENT_FAN ≠ ATTACHMENT_GRIPPER := by decide
  refine ⟨?_, ?_, init_seq_skip, alreadyInit_monotone_runOp⟩
  · intro s h0 hp ho hA
    simp [init_seq, h0, gcode_enable_motors, gcode_pos_end_stop, gcode_send_pos,
          resolve_axis, fmt_axis, update_pos_num, gcode_attachment_low, gcode_open_gripper,
          gcode_send_priv, is_connection_not_open, is_connection_open, hp, ho, hA, e1, e2, e3]
  · intro s h0 hp ho hA
    simp [init_seq, h0, gcode_enable_motors, gcode_pos_end_stop, gcode_send_pos,
          resolve_axis, fmt_axis, update_pos_num, gcode_attachment_low, gcode_disable_fan,
          gcode_send_priv, is_connection_not_open, is_connection_open, hp, ho, hA, eF,
          e1, e2, e4]

theorem claim_C7_witness :
    init_seq sampleOpenFresh = .ok ((),
      { sampleOpenFresh with
        xPos := some (.floatV ⟨0, 1⟩), yPos := some (.floatV ⟨195, 1⟩),
        zPos := some (.floatV ⟨1340, 1⟩), alreadyInit := true,
        trace := sampleOpenFresh.trace ++
          [.sleep ⟨15, 1⟩, .write "M17\r\n", .write "G1 X0.0 Y19.5 Z134.0\r\n",
           .write "M5 T10\r\n"] }) ∧
    init_seq sampleOpenFan = .ok ((),
      { sampleOpenFan with
        xPos := some (.floatV ⟨0, 1⟩), yPos := some (.floatV ⟨195, 1⟩),
        zPos := some (.floatV ⟨1340, 1⟩), alreadyInit := true,
        trace := sampleOpenFan.trace ++
          [.sleep ⟨15, 1⟩, .write "M17\r\n", .write "G1 X0.0 Y19.5 Z134.0\r\n",
           .write "M107\r\n"] }) ∧
    init_seq sampleInitDone = .ok ((), sampleInitDone) ∧
    (runOp sampleInitDone .closeConnection).alreadyInit = true :=
  ⟨claim_C7.1 sampleOpenFresh rfl rfl rfl rfl,
   claim_C7.2.1 sampleOpenFan rfl rfl rfl rfl,
   claim_C7.2.2.1 sampleInitDone rfl,
   claim_C7.2.2.2 sampleInitDone .closeConnection rfl⟩

end RobotArm
